import Mathlib

/-!
Verification development for the investment-tool repository (src/app.py).

The Python program is shallowly embedded: dictionaries with a fixed set of
possible keys become structures whose fields are `Option`-typed (`none`
models an absent key or an explicit `None` value, which the program treats
identically through `dict.get` and truthiness tests), numbers carried
verbatim from providers are modelled as `ℚ`, and the Flask handlers become
pure functions from request arguments and external-collaborator inputs to a
response value.  Network-derived content (scraped text, provider records)
is a free input of the corresponding function.
-/

namespace InvestmentTool

/-- Python `str.lower()` (ASCII case folding, which covers every string the
program compares). Defined over the character list so that the kernel can
evaluate it, unlike `String.toLower`. -/
def strLower (s : String) : String := ⟨s.data.map Char.toLower⟩

/-- Python `str.upper()`. -/
def strUpper (s : String) : String := ⟨s.data.map Char.toUpper⟩

/-- Python `str.strip()`: whitespace removed from both ends. -/
def strTrim (s : String) : String :=
  ⟨((s.data.dropWhile Char.isWhitespace).reverse.dropWhile Char.isWhitespace).reverse⟩

/-- Python `s.endswith(suf)`. -/
def strEndsWith (s suf : String) : Bool := suf.data.isSuffixOf s.data

/-- Python slice `s[:n]` on a string. -/
def strTake (s : String) (n : Nat) : String := ⟨s.data.take n⟩

/-- Whether a string is empty, i.e. Python-falsy. -/
def strIsEmpty (s : String) : Bool := s.data.isEmpty

/-- Python truthiness of a string-or-None value: `None` and `""` are falsy. -/
def truthyS : Option String → Bool
  | none => false
  | some s => !(strIsEmpty s)

/-- Python `a or b` on strings with `""` falsy. -/
def pyOrS (a b : String) : String :=
  if strIsEmpty a then b else a

/-- Python substring test `pat in s` (membership of `pat` in `s`). -/
def strHasSubstr (s pat : String) : Bool :=
  s.data.tails.any (fun t => pat.data.isPrefixOf t)

/-- Value of a list of decimal digits, `none` if empty or a non-digit occurs. -/
def digitsVal (cs : List Char) : Option Nat :=
  if cs.isEmpty then none
  else if cs.all Char.isDigit then
    some (cs.foldl (fun a c => a * 10 + (c.toNat - 48)) 0)
  else none

/-- Python `int(s)` on a decimal string: surrounding whitespace is allowed,
then an optional sign and a non-empty digit run; anything else raises
(modelled as `none`). -/
def parsePyInt (s : String) : Option Int :=
  match (strTrim s).data with
  | '+' :: rest => (digitsVal rest).map Int.ofNat
  | '-' :: rest => (digitsVal rest).map (fun n => -(n : Int))
  | l => (digitsVal l).map Int.ofNat

/-- Python slice `l[:n]`: for `n ≥ 0` the first `n` elements, for `n < 0`
all but the last `-n` elements. -/
def pySlice (n : Int) (l : List α) : List α :=
  if 0 ≤ n then l.take n.toNat
  else l.take ((l.length : Int) + n).toNat

/-- Model of `request.args.get('pageSize', default)` followed by `int(...)`:
an absent parameter yields the integer default, a present one is parsed
and `none` models the `ValueError` raised by `int()`. -/
def pyPageSize (o : Option String) (d : Int) : Option Int :=
  match o with
  | none => some d
  | some s => parsePyInt s

/-- A raw record returned by the `mstarpy` provider, restricted to the keys
the program reads (`format_morningstar_data`). -/
structure RawItem where
  fundShareClassId : Option String := none
  SecId : Option String := none
  Ticker : Option String := none
  TenforeId : Option String := none
  ISIN : Option String := none
  Name : Option String := none
  GBRReturnM3 : Option ℚ := none
  GBRReturnM12 : Option ℚ := none
  GBRReturnM36 : Option ℚ := none
  GBRReturnM60 : Option ℚ := none
  GBRReturnM120 : Option ℚ := none
  ongoingCharge : Option ℚ := none
  globalAssetClassId : Option String := none
  LargestSector : Option String := none
  SectorName : Option String := none
  MarketCountryName : Option String := none
  currency : Option String := none
  ExchangeId : Option String := none
  deriving DecidableEq, Repr

/-- A result dictionary as built by the aggregator's sources, the
normalizer and the deduplicator; `none` = key absent (or `None`). -/
structure PyRecord where
  apir : Option String := none
  name : Option String := none
  threeMonths : Option ℚ := none
  oneYear : Option ℚ := none
  threeYears : Option ℚ := none
  fiveYears : Option ℚ := none
  tenYears : Option ℚ := none
  tcr : Option ℚ := none
  assetClass : Option String := none
  sector : Option String := none
  status : Option String := none
  country : Option String := none
  currency : Option String := none
  exchange : Option String := none
  type : Option String := none
  source : Option String := none
  fund_name : Option String := none
  option_name : Option String := none
  risk_level : Option String := none
  suggested_timeframe : Option String := none
  ticker : Option String := none
  fund_manager : Option String := none
  abn : Option String := none
  deriving DecidableEq, Repr

/-- Embedding of `format_morningstar_data(item, source)` (src/app.py lines 600-624). -/
def format_morningstar_data (item : RawItem) (source : String) : PyRecord :=
  let identifier :=
    pyOrS (item.fundShareClassId.getD "")
      (pyOrS (item.SecId.getD "")
        (pyOrS (item.Ticker.getD "")
          (pyOrS (item.TenforeId.getD "") (item.ISIN.getD ""))))
  { apir := some identifier
  , name := some (item.Name.getD "")
  , threeMonths := item.GBRReturnM3
  , oneYear := item.GBRReturnM12
  , threeYears := item.GBRReturnM36
  , fiveYears := item.GBRReturnM60
  , tenYears := item.GBRReturnM120
  , tcr := item.ongoingCharge
  , assetClass := some (item.globalAssetClassId.getD "")
  , sector := some (pyOrS (item.LargestSector.getD "") (item.SectorName.getD ""))
  , status := some source
  , country := some (item.MarketCountryName.getD "Australia")
  , currency := some (item.currency.getD "AUD")
  , exchange := some (item.ExchangeId.getD "")
  , type := some "Fund" }

/-- One fund-strategy item of `enhanced_morningstar_multiple_strategies`
(lines 562-565): keep the formatted record when both `apir` and `name`
are truthy. -/
def formatFundItem (item : RawItem) : Option PyRecord :=
  let f := format_morningstar_data item "Enhanced Morningstar Multi-Strategy"
  if truthyS f.apir && truthyS f.name then some f else none

/-- One stock-search item of the same function (lines 584-589): after the
truthiness check, `tcr` is overwritten with `None` and `type`
with `'Stock/ETF'`. -/
def formatStockItem (item : RawItem) : Option PyRecord :=
  let f := format_morningstar_data item "Enhanced Morningstar Stocks"
  if truthyS f.apir && truthyS f.name then
    some { f with tcr := none, type := some "Stock/ETF" }
  else none

/-- The fund half of `enhanced_morningstar_multiple_strategies`: each of the
search strategies either returns provider items or raises (an `error`
contributes nothing, line 567-569). -/
def fundPipeline (strategies : List (Except String (List RawItem))) : List PyRecord :=
  (strategies.map (fun st =>
    match st with
    | .ok items => items.filterMap formatFundItem
    | .error _ => [])).flatten

/-- The stock half of the same function: one `mstarpy.search_stock` call
that either returns items or raises (lines 572-592). -/
def stockPipeline (stockSearch : Except String (List RawItem)) : List PyRecord :=
  match stockSearch with
  | .ok items => items.filterMap formatStockItem
  | .error _ => []

/-- Embedding of `enhanced_morningstar_multiple_strategies` (lines 499-598): the fund
strategies' results in order, then the stock-search results. -/
def enhanced_morningstar_multiple_strategies
    (strategies : List (Except String (List RawItem)))
    (stockSearch : Except String (List RawItem)) : List PyRecord :=
  fundPipeline strategies ++ stockPipeline stockSearch

/-- Deduplication key (lines 926-930): lower-cased stripped name joined by
`'_'` with upper-cased stripped identifier. -/
def comboKey (item : PyRecord) : String :=
  strTrim (strLower (item.name.getD "")) ++ "_" ++ strTrim (strUpper (item.apir.getD ""))

/-- The `enhanced_item` built for each kept record (lines 935-959):
fixed keys with defaults; the extra keys are copied only when present. -/
def enhance (item : PyRecord) : PyRecord :=
  { apir := some (item.apir.getD "")
  , name := some (item.name.getD "")
  , threeMonths := item.threeMonths
  , oneYear := item.oneYear
  , threeYears := item.threeYears
  , fiveYears := item.fiveYears
  , tenYears := item.tenYears
  , tcr := item.tcr
  , assetClass := some (item.assetClass.getD "Unknown")
  , sector := some (item.sector.getD "")
  , status := some (item.status.getD "Multiple Sources")
  , country := some (item.country.getD "Australia")
  , currency := some (item.currency.getD "AUD")
  , exchange := some (item.exchange.getD "")
  , type := some (item.type.getD "Fund")
  , source := some (item.source.getD "Ultimate Aggregator")
  , fund_name := item.fund_name
  , option_name := item.option_name
  , risk_level := item.risk_level
  , suggested_timeframe := item.suggested_timeframe
  , ticker := item.ticker
  , fund_manager := item.fund_manager
  , abn := item.abn }

/-- The loop of `deduplicate_and_enhance` with the `seen_combinations`
set threaded through. -/
def dedupGo (seen : List String) : List PyRecord → List PyRecord
  | [] => []
  | item :: rest =>
    if truthyS item.name && truthyS item.apir then
      if comboKey item ∈ seen then dedupGo seen rest
      else enhance item :: dedupGo (comboKey item :: seen) rest
    else dedupGo seen rest

/-- Embedding of `deduplicate_and_enhance` (lines 916-963). -/
def deduplicate_and_enhance (all_results : List PyRecord) : List PyRecord :=
  dedupGo [] all_results

/-- A record built by `scrape_apir_official_database` (lines 42-85) for one
APIR code found in the scraped page text. -/
def apirRecord (code : String) : PyRecord :=
  { apir := some code
  , name := some ("Fund " ++ code)
  , source := some "APIR Official Database"
  , status := some "APIR Official"
  , country := some "Australia"
  , currency := some "AUD" }

/-- One table row scraped by `scrape_asx_mfund_complete_list`
(lines 87-148): fund name, mFund code, and the performance figure the
regex extracted (if any). -/
structure MfundRow where
  fund_name : String
  mfund_code : String
  perf : Option ℚ := none
  deriving DecidableEq, Repr

/-- The record built for a matching mFund row (lines 129-139). -/
def mfundRecord (r : MfundRow) : PyRecord :=
  { apir := some r.mfund_code
  , name := some r.fund_name
  , fiveYears := r.perf
  , source := some "ASX mFund"
  , status := some "ASX mFund Listed"
  , country := some "Australia"
  , currency := some "AUD"
  , type := some "mFund" }

/-- One table row scraped by `scrape_ato_super_fund_lookup`
(lines 150-196). -/
structure AtoRow where
  fund_name : String
  abn : String
  deriving DecidableEq, Repr

/-- The record built for a matching ATO row (lines 180-189). -/
def atoRecord (r : AtoRow) : PyRecord :=
  { apir := some (if strIsEmpty r.abn then "" else "ATO" ++ strTake r.abn 6 ++ "AU")
  , name := some r.fund_name
  , source := some "ATO Super Fund Lookup"
  , status := some "ATO Registered Super Fund"
  , country := some "Australia"
  , currency := some "AUD"
  , type := some "Super Fund"
  , abn := some r.abn }

/-- One fund extracted by `scrape_investsmart_comprehensive` together with
`scrape_individual_investsmart_fund` (lines 198-308): the fund page data
plus the link text used as name. A fund is only returned when an APIR
code was found. -/
structure InvestsmartFund where
  name : String
  apir : String
  threeMonths : Option ℚ := none
  oneYear : Option ℚ := none
  threeYears : Option ℚ := none
  fiveYears : Option ℚ := none
  tenYears : Option ℚ := none
  tcr : Option ℚ := none
  deriving DecidableEq, Repr

/-- The record built for a matching InvestSMART fund (lines 226-260). -/
def investsmartRecord (f : InvestsmartFund) : PyRecord :=
  { apir := some f.apir
  , name := some f.name
  , threeMonths := f.threeMonths
  , oneYear := f.oneYear
  , threeYears := f.threeYears
  , fiveYears := f.fiveYears
  , tenYears := f.tenYears
  , tcr := f.tcr
  , status := some "InvestSMART Detailed"
  , source := some "InvestSMART Comprehensive" }

/-- One fund link scraped by `scrape_morningstar_australia_site`
(lines 310-360); `apirCode` is the code taken from the link/text or the
hash-generated `MOR....AU` fallback. -/
structure MsAuLink where
  fund_name : String
  apirCode : String
  deriving DecidableEq, Repr

/-- The record built for a matching Morningstar-Australia link
(lines 334-351). -/
def msAuRecord (r : MsAuLink) : PyRecord :=
  { apir := some r.apirCode
  , name := some r.fund_name
  , source := some "Morningstar Australia"
  , status := some "Morningstar Australia Listed"
  , country := some "Australia"
  , currency := some "AUD"
  , type := some "Fund" }

/-- One element found by `scrape_financial_comparison_sites`
(lines 362-423); `apirCode` is the hash-generated `CMP....AU` code. -/
structure ComparisonItem where
  text : String
  apirCode : String
  oneYear : Option ℚ := none
  fiveYears : Option ℚ := none
  deriving DecidableEq, Repr

/-- The record built for a comparison-site element (lines 395-414). -/
def comparisonRecord (r : ComparisonItem) : PyRecord :=
  { apir := some r.apirCode
  , name := some r.text
  , oneYear := r.oneYear
  , fiveYears := r.fiveYears
  , source := some "Financial Comparison Sites"
  , status := some "Comparison Site Listed"
  , country := some "Australia"
  , currency := some "AUD" }

/-- One element found by `scrape_major_fund_manager_websites`
(lines 425-497); `manager` is decided from the site URL and `apirCode`
is the hash-generated prefixed code. -/
structure FmItem where
  fund_name : String
  manager : String
  apirCode : String
  deriving DecidableEq, Repr

/-- The record built for a fund-manager-site element (lines 466-488):
`type` is `'ETF'` when the lower-cased name contains `'etf'`. -/
def fmRecord (r : FmItem) : PyRecord :=
  { apir := some r.apirCode
  , name := some r.fund_name
  , source := some (r.manager ++ " Direct")
  , status := some (r.manager ++ " Fund")
  , country := some "Australia"
  , currency := some "AUD"
  , fund_manager := some r.manager
  , type := some (if strHasSubstr (strLower r.fund_name) "etf" then "ETF" else "Fund") }

/-- Data of one hard-coded super-fund option
(`get_comprehensive_super_fund_options`, lines 674-803). -/
structure SuperOptionData where
  apir : String
  fund_name : String
  option_name : String
  description : String
  risk_level : String
  suggested_timeframe : String
  threeMonths : Option ℚ := none
  oneYear : Option ℚ := none
  threeYears : Option ℚ := none
  fiveYears : Option ℚ := none
  tenYears : Option ℚ := none
  tcr : Option ℚ := none

/-- The static `super_fund_options` table, in insertion order; the first
component is the dictionary key (the full option name). -/
def super_fund_options : List (String × SuperOptionData) :=
  [ ("AustralianSuper Balanced",
      { apir := "ASU0001AU", fund_name := "AustralianSuper", option_name := "Balanced"
      , description := "Diversified balanced option with focus on growth assets"
      , risk_level := "Medium to High", suggested_timeframe := "10+ years"
      , oneYear := some (5.71 : ℚ), threeYears := some (7.2 : ℚ), fiveYears := some (8.1 : ℚ) })
  , ("AustralianSuper Conservative Balanced",
      { apir := "ASU0002AU", fund_name := "AustralianSuper", option_name := "Conservative Balanced"
      , description := "Conservative diversified option"
      , risk_level := "Medium", suggested_timeframe := "7+ years"
      , oneYear := some (4.53 : ℚ), threeYears := some (5.8 : ℚ), fiveYears := some (6.2 : ℚ) })
  , ("AustralianSuper High Growth",
      { apir := "ASU0003AU", fund_name := "AustralianSuper", option_name := "High Growth"
      , description := "High growth option with focus on shares"
      , risk_level := "High", suggested_timeframe := "10+ years"
      , oneYear := some (6.8 : ℚ), threeYears := some (8.5 : ℚ), fiveYears := some (9.2 : ℚ) })
  , ("AustralianSuper Australian Shares",
      { apir := "ASU0004AU", fund_name := "AustralianSuper", option_name := "Australian Shares"
      , description := "Focused on Australian share market"
      , risk_level := "High", suggested_timeframe := "7+ years"
      , oneYear := some (8.32 : ℚ), threeYears := some (9.1 : ℚ), fiveYears := some (10.5 : ℚ) })
  , ("HESTA Balanced Growth",
      { apir := "HES0001AU", fund_name := "HESTA", option_name := "Balanced Growth"
      , description := "MySuper balanced growth option"
      , risk_level := "Medium to High", suggested_timeframe := "10+ years"
      , oneYear := some (6.2 : ℚ), fiveYears := some (8.7 : ℚ) })
  , ("Hostplus Balanced",
      { apir := "HOS0001AU", fund_name := "Hostplus", option_name := "Balanced"
      , description := "MySuper balanced investment option"
      , risk_level := "Medium to High", suggested_timeframe := "10+ years"
      , oneYear := some (7.1 : ℚ), fiveYears := some (9.3 : ℚ) })
  , ("REST Balanced",
      { apir := "RES0001AU", fund_name := "REST Industry Super", option_name := "Balanced"
      , description := "Default MySuper balanced option"
      , risk_level := "Medium to High", suggested_timeframe := "10+ years"
      , oneYear := some (6.8 : ℚ), fiveYears := some (8.9 : ℚ) })
  , ("UniSuper Balanced",
      { apir := "UNI0001AU", fund_name := "UniSuper", option_name := "Balanced"
      , description := "Default balanced investment option"
      , risk_level := "Medium to High", suggested_timeframe := "10+ years"
      , oneYear := some (6.5 : ℚ), fiveYears := some (8.8 : ℚ) })
  , ("Cbus Growth",
      { apir := "CBU0001AU", fund_name := "Cbus", option_name := "Growth (MySuper)"
      , description := "Default MySuper growth option"
      , risk_level := "Medium to High", suggested_timeframe := "10+ years"
      , oneYear := some (7.3 : ℚ), fiveYears := some (9.1 : ℚ) }) ]

/-- Embedding of `get_comprehensive_super_fund_options(search_term)` (lines 674-803):
options whose key or fund name contains the lower-cased term, each mapped
to a result record (note `tcr` defaults to `0.5`). -/
def get_comprehensive_super_fund_options (search_term : String) : List PyRecord :=
  (super_fund_options.filter (fun p =>
    strHasSubstr (strLower p.1) (strLower search_term) ||
    strHasSubstr (strLower p.2.fund_name) (strLower search_term))).map (fun p =>
      { apir := some p.2.apir
      , name := some p.1
      , threeMonths := p.2.threeMonths
      , oneYear := p.2.oneYear
      , threeYears := p.2.threeYears
      , fiveYears := p.2.fiveYears
      , tenYears := p.2.tenYears
      , tcr := some (p.2.tcr.getD (0.5 : ℚ))
      , assetClass := some "Superannuation"
      , sector := some p.2.description
      , status := some "Australian Super Fund Investment Option"
      , country := some "Australia"
      , currency := some "AUD"
      , exchange := some "Australian Super"
      , type := some "Super Fund Option"
      , fund_name := some p.2.fund_name
      , option_name := some p.2.option_name
      , risk_level := some p.2.risk_level
      , suggested_timeframe := some p.2.suggested_timeframe })

/-- Data of one hard-coded ASX ETF (`get_asx_etf_database`,
lines 805-914). -/
structure EtfData where
  name : String
  apir : String
  description : String
  sector : String
  fund_manager : String
  oneYear : Option ℚ := none
  threeYears : Option ℚ := none
  fiveYears : Option ℚ := none
  tcr : Option ℚ := none

/-- The static `etf_database` table keyed by ticker, in insertion order. -/
def etf_database : List (String × EtfData) :=
  [ ("VAS", { name := "Vanguard Australian Shares Index ETF", apir := "VAN0011AU"
            , description := "Tracks the ASX 300 Index", sector := "Australian Equity"
            , fund_manager := "Vanguard"
            , oneYear := some (12.5 : ℚ), threeYears := some (8.7 : ℚ)
            , fiveYears := some (9.1 : ℚ), tcr := some (0.10 : ℚ) })
  , ("VGS", { name := "Vanguard MSCI Index International Shares ETF", apir := "VAN0012AU"
            , description := "Tracks international developed markets", sector := "International Equity"
            , fund_manager := "Vanguard"
            , oneYear := some (15.2 : ℚ), threeYears := some (12.1 : ℚ)
            , fiveYears := some (13.8 : ℚ), tcr := some (0.18 : ℚ) })
  , ("A200", { name := "BetaShares Australia 200 ETF", apir := "BTA0035AU"
             , description := "Tracks the ASX 200 Index", sector := "Australian Equity"
             , fund_manager := "BetaShares"
             , oneYear := some (11.8 : ℚ), threeYears := some (8.2 : ℚ)
             , fiveYears := some (8.9 : ℚ), tcr := some (0.07 : ℚ) })
  , ("NDQ", { name := "BetaShares NASDAQ 100 ETF", apir := "BTA0036AU"
            , description := "Tracks the NASDAQ 100 Index", sector := "US Technology"
            , fund_manager := "BetaShares"
            , oneYear := some (28.5 : ℚ), threeYears := some (18.2 : ℚ)
            , fiveYears := some (20.1 : ℚ), tcr := some (0.48 : ℚ) })
  , ("VTS", { name := "Vanguard US Total Market Shares Index ETF", apir := "VAN0013AU"
            , description := "Tracks the total US stock market", sector := "US Equity"
            , fund_manager := "Vanguard"
            , oneYear := some (22.1 : ℚ), threeYears := some (15.8 : ℚ)
            , fiveYears := some (17.2 : ℚ), tcr := some (0.03 : ℚ) })
  , ("IOZ", { name := "iShares Core S&P 500 ETF", apir := "IOZ0001AU"
            , description := "Tracks the S&P 500 Index", sector := "US Equity"
            , fund_manager := "iShares"
            , oneYear := some (20.8 : ℚ), threeYears := some (14.9 : ℚ)
            , fiveYears := some (16.5 : ℚ), tcr := some (0.09 : ℚ) })
  , ("VGB", { name := "Vanguard Australian Government Bond Index ETF", apir := "VAN0014AU"
            , description := "Tracks Australian government bonds", sector := "Fixed Interest"
            , fund_manager := "Vanguard"
            , oneYear := some (3.2 : ℚ), threeYears := some (2.1 : ℚ)
            , fiveYears := some (3.8 : ℚ), tcr := some (0.20 : ℚ) }) ]

/-- Embedding of `get_asx_etf_database(search_term)` (lines 805-914). -/
def get_asx_etf_database (search_term : String) : List PyRecord :=
  (etf_database.filter (fun p =>
    strHasSubstr (strLower p.1) (strLower search_term) ||
    strHasSubstr (strLower p.2.name) (strLower search_term) ||
    strHasSubstr (strLower p.2.apir) (strLower search_term))).map (fun p =>
      { apir := some p.2.apir
      , name := some (p.2.name ++ " (" ++ p.1 ++ ")")
      , oneYear := p.2.oneYear
      , threeYears := p.2.threeYears
      , fiveYears := p.2.fiveYears
      , tcr := p.2.tcr
      , assetClass := some p.2.sector
      , sector := some p.2.description
      , status := some "ASX ETF"
      , country := some "Australia"
      , currency := some "AUD"
      , exchange := some "ASX"
      , type := some "ETF"
      , ticker := some p.1
      , fund_manager := some p.2.fund_manager })

/-- One task submitted to the `ThreadPoolExecutor` fan-out of
`search_ultimate_comprehensive` (lines 632-655).  Each constructor carries
the network-derived free inputs of its scraper; `failedTask` models a
future whose `result()` raised an exception (line 651 — note that since
`as_completed` yields only completed futures, the `result(timeout=30)`
per-future timeout can never fire).  The collection-level
`as_completed(..., timeout=120)` timeout is not a per-task outcome: it
aborts the whole `for` loop and is modelled by the separate
collection-timeout argument of `search_ultimate_comprehensive`. -/
inductive SourceTask where
  | apirTask (codes : List String)
  | mfundTask (rows : List MfundRow)
  | atoTask (rows : List AtoRow)
  | investsmartTask (funds : List InvestsmartFund)
  | msAuTask (links : List MsAuLink)
  | comparisonTask (items : List ComparisonItem)
  | fmTask (items : List FmItem)
  | morningstarApiTask (strategies : List (Except String (List RawItem)))
      (stockSearch : Except String (List RawItem))
  | failedTask (msg : String)

/-- The records one completed task contributes, including each scraper's
own search-term filter. -/
def runTask (search_term : String) : SourceTask → List PyRecord
  | .apirTask codes => codes.map apirRecord
  | .mfundTask rows =>
      (rows.filter (fun r =>
        strHasSubstr (strLower r.fund_name) (strLower search_term) ||
        strHasSubstr (strLower r.mfund_code) (strLower search_term))).map mfundRecord
  | .atoTask rows =>
      (rows.filter (fun r =>
        strHasSubstr (strLower r.fund_name) (strLower search_term))).map atoRecord
  | .investsmartTask funds =>
      (funds.filter (fun f =>
        strHasSubstr (strLower f.name) (strLower search_term) &&
        !(strIsEmpty f.apir))).map investsmartRecord
  | .msAuTask links =>
      (links.filter (fun r =>
        strHasSubstr (strLower r.fund_name) (strLower search_term))).map msAuRecord
  | .comparisonTask items =>
      (items.filter (fun r =>
        strHasSubstr (strLower r.text) (strLower search_term))).map comparisonRecord
  | .fmTask items =>
      (items.filter (fun r =>
        strHasSubstr (strLower r.fund_name) (strLower search_term))).map fmRecord
  | .morningstarApiTask strategies stockSearch =>
      enhanced_morningstar_multiple_strategies strategies stockSearch
  | .failedTask _ => []

/-- Embedding of `search_ultimate_comprehensive` (lines 626-672): the fan-out tasks'
contributions in completion order (`tasks` is that order), then the two
static catalogs, then deduplication.  `search_type` is accepted and
ignored, as in the source.  `collection_timeout` models the
`as_completed(future_to_source, timeout=120)` blanket timeout of line 648:
it is raised at the `for` statement itself, OUTSIDE the per-future
try/except, so it is uncaught here — every already-collected record is
discarded and the `TimeoutError` propagates to the route handler
(`Except.error`). -/
def search_ultimate_comprehensive (search_term : String) (search_type : String)
    (tasks : List SourceTask) (collection_timeout : Option String) :
    Except String (List PyRecord) :=
  match collection_timeout with
  | some msg => .error msg
  | none =>
      .ok (deduplicate_and_enhance
        (((tasks.map (runTask search_term)).flatten
          ++ get_comprehensive_super_fund_options search_term)
          ++ get_asx_etf_database search_term))

/-- The query parameters of a request; `none` models an absent parameter. -/
structure Args where
  term : Option String := none
  pageSize : Option String := none
  country : Option String := none
  type : Option String := none
  deriving DecidableEq

/-- The external collaborators' behaviour during one request: the four
Morningstar fund strategies, the Morningstar stock search, the fan-out
tasks in completion order, and whether the fan-out collection hit the
blanket `as_completed` 120-second timeout (`some msg` = the uncaught
`TimeoutError` with message `msg`, `none` = all futures completed in
time). -/
structure ExtInputs where
  strategies : List (Except String (List RawItem)) := []
  stockSearch : Except String (List RawItem) := .error "unavailable"
  tasks : List SourceTask := []
  ultimateTimeout : Option String := none

/-- The JSON body of a handler response, restricted to the fields the
claims mention: either `{'error': msg}` or a success body with
`success: True`, `results`, `count` and `total_found`. -/
inductive RespBody where
  | errBody (msg : String)
  | okBody (results : List PyRecord) (count : Nat) (total_found : Nat)
  deriving DecidableEq

/-- An HTTP response: status code and JSON body. -/
structure HttpResponse where
  status : Nat
  body : RespBody
  deriving DecidableEq

/-- The `results` array of a response (empty for an error body). -/
def HttpResponse.results : HttpResponse → List PyRecord
  | ⟨_, .okBody rs _ _⟩ => rs
  | ⟨_, .errBody _⟩ => []

/-- Whether a response body is an error object. -/
def HttpResponse.isError : HttpResponse → Prop
  | ⟨_, .errBody _⟩ => True
  | ⟨_, .okBody _ _ _⟩ => False

/-- Test `country and country.lower() == 'au'` (lines 982, 1027, 1101). -/
def countryIsAu : Option String → Bool
  | none => false
  | some c => !(strIsEmpty c) && (strLower c == "au")

/-- The 200 response built from `results` and `final_results =
results[:page_size]`: `success: True`, the sliced results, their count,
and the pre-slice total. -/
def okResponse (ps : Int) (results : List PyRecord) : HttpResponse :=
  ⟨200, .okBody (pySlice ps results) (pySlice ps results).length results.length⟩

/-- The response built from the comprehensive search's outcome: a normal
result list is sliced and answered 200; an uncaught `TimeoutError` from
`as_completed` reaches the handler's catch-all `except Exception`, which
answers 500 with `{'error': str(e)}` and discards every collected
record. -/
def ultimateResponse (ps : Int) (outcome : Except String (List PyRecord)) :
    HttpResponse :=
  match outcome with
  | .error msg => ⟨500, .errBody msg⟩
  | .ok results => okResponse ps results

/-- The shared shape of the three funds/stocks/combined handlers
(lines 968-1012, 1014-1044, 1089-1118): read `term`, convert `pageSize`
with `int()` (a failure propagates to the catch-all `except`, giving 500),
reject an empty term with 400, otherwise pick the aggregation path by
`country`, slice to `pageSize`, and answer 200 — except that on the
country=au path an uncaught fan-out collection timeout surfaces as 500
through the same catch-all. -/
def searchHandler (defaultPageSize : Int) (args : Args) (ext : ExtInputs)
    (search_type : String) : HttpResponse :=
  match pyPageSize args.pageSize defaultPageSize with
  | none =>
      ⟨500, .errBody ("invalid literal for int() with base 10: " ++
        (args.pageSize.getD ""))⟩
  | some ps =>
      if strIsEmpty (args.term.getD "") then
        ⟨400, .errBody "Search term is required"⟩
      else
        if countryIsAu args.country then
          ultimateResponse ps
            (search_ultimate_comprehensive (args.term.getD "") search_type
              ext.tasks ext.ultimateTimeout)
        else
          okResponse ps
            (enhanced_morningstar_multiple_strategies ext.strategies
              ext.stockSearch)

/-- Handler `search_funds` (`/api/search/funds`, lines 968-1012). -/
def search_funds (args : Args) (ext : ExtInputs) : HttpResponse :=
  searchHandler 20 args ext "funds"

/-- Handler `search_stocks` (`/api/search/stocks`, lines 1014-1044). -/
def search_stocks (args : Args) (ext : ExtInputs) : HttpResponse :=
  searchHandler 20 args ext "stocks"

/-- Handler `search_combined` (`/api/search/combined`, lines 1089-1118). -/
def search_combined (args : Args) (ext : ExtInputs) : HttpResponse :=
  searchHandler 20 args ext "combined"

/-- Handler `search_australia` (`/api/search/australia`, lines 1046-1087):
always the comprehensive path, default page size 30, and a `type`
parameter defaulting to `'combined'`. -/
def search_australia (args : Args) (ext : ExtInputs) : HttpResponse :=
  match pyPageSize args.pageSize 30 with
  | none =>
      ⟨500, .errBody ("invalid literal for int() with base 10: " ++
        (args.pageSize.getD ""))⟩
  | some ps =>
      if strIsEmpty (args.term.getD "") then
        ⟨400, .errBody "Search term is required"⟩
      else
        ultimateResponse ps
          (search_ultimate_comprehensive (args.term.getD "")
            (args.type.getD "combined") ext.tasks ext.ultimateTimeout)

theorem strIsEmpty_empty : strIsEmpty "" = true := rfl

theorem searchHandler_eq_none (d : Int) (args : Args) (ext : ExtInputs)
    (ty : String) (hp : pyPageSize args.pageSize d = none) :
    searchHandler d args ext ty
      = ⟨500, .errBody ("invalid literal for int() with base 10: " ++
          (args.pageSize.getD ""))⟩ := by
  unfold searchHandler
  rw [hp]

theorem searchHandler_eq_some (d : Int) (args : Args) (ext : ExtInputs)
    (ty : String) (ps : Int) (hp : pyPageSize args.pageSize d = some ps) :
    searchHandler d args ext ty
      = if strIsEmpty (args.term.getD "") then
          ⟨400, .errBody "Search term is required"⟩
        else
          if countryIsAu args.country then
            ultimateResponse ps
              (search_ultimate_comprehensive (args.term.getD "") ty
                ext.tasks ext.ultimateTimeout)
          else
            okResponse ps
              (enhanced_morningstar_multiple_strategies ext.strategies
                ext.stockSearch) := by
  unfold searchHandler
  rw [hp]

theorem search_australia_eq_none (args : Args) (ext : ExtInputs)
    (hp : pyPageSize args.pageSize 30 = none) :
    search_australia args ext
      = ⟨500, .errBody ("invalid literal for int() with base 10: " ++
          (args.pageSize.getD ""))⟩ := by
  unfold search_australia
  rw [hp]

theorem search_australia_eq_some (args : Args) (ext : ExtInputs) (ps : Int)
    (hp : pyPageSize args.pageSize 30 = some ps) :
    search_australia args ext
      = if strIsEmpty (args.term.getD "") then
          ⟨400, .errBody "Search term is required"⟩
        else
          ultimateResponse ps
            (search_ultimate_comprehensive (args.term.getD "")
              (args.type.getD "combined") ext.tasks ext.ultimateTimeout) := by
  unfold search_australia
  rw [hp]

theorem truthyS_some_empty : truthyS (some "") = false := rfl

theorem pyOrS_empty (b : String) : pyOrS "" b = b := rfl

theorem enhance_enhance (x : PyRecord) : enhance (enhance x) = enhance x := by
  simp [enhance]

theorem comboKey_enhance (x : PyRecord) : comboKey (enhance x) = comboKey x := by
  simp [comboKey, enhance]

theorem truthyS_enhance_name (x : PyRecord) :
    truthyS (enhance x).name = truthyS x.name := by
  cases h : x.name with
  | none => simp [enhance, h]; rfl
  | some s => simp [enhance, h]

theorem truthyS_enhance_apir (x : PyRecord) :
    truthyS (enhance x).apir = truthyS x.apir := by
  cases h : x.apir with
  | none => simp [enhance, h]; rfl
  | some s => simp [enhance, h]

theorem tcr_enhance (x : PyRecord) : (enhance x).tcr = x.tcr := rfl

theorem type_enhance (x : PyRecord) : (enhance x).type = some (x.type.getD "Fund") := rfl

theorem mem_dedupGo {r : PyRecord} :
    ∀ (l : List PyRecord) (seen : List String), r ∈ dedupGo seen l →
      ∃ x, x ∈ l ∧ r = enhance x ∧ truthyS x.name = true ∧ truthyS x.apir = true
  | [], _, h => by simp [dedupGo] at h
  | item :: rest, seen, h => by
    rw [dedupGo] at h
    by_cases hc : (truthyS item.name && truthyS item.apir) = true
    · rw [if_pos hc] at h
      by_cases hk : comboKey item ∈ seen
      · rw [if_pos hk] at h
        obtain ⟨x, hx, hr⟩ := mem_dedupGo rest seen h
        exact ⟨x, List.mem_cons_of_mem _ hx, hr⟩
      · rw [if_neg hk] at h
        rcases List.mem_cons.mp h with h1 | h2
        · exact ⟨item, List.mem_cons_self _ _, h1,
            ((Bool.and_eq_true _ _).mp hc).1, ((Bool.and_eq_true _ _).mp hc).2⟩
        · obtain ⟨x, hx, hr⟩ := mem_dedupGo rest _ h2
          exact ⟨x, List.mem_cons_of_mem _ hx, hr⟩
    · rw [if_neg hc] at h
      obtain ⟨x, hx, hr⟩ := mem_dedupGo rest seen h
      exact ⟨x, List.mem_cons_of_mem _ hx, hr⟩

theorem dedupGo_keys :
    ∀ (l : List PyRecord) (seen : List String),
      ((dedupGo seen l).map comboKey).Nodup ∧
      ∀ k ∈ (dedupGo seen l).map comboKey, k ∉ seen
  | [], seen => by simp [dedupGo]
  | item :: rest, seen => by
    rw [dedupGo]
    by_cases hc : (truthyS item.name && truthyS item.apir) = true
    · rw [if_pos hc]
      by_cases hk : comboKey item ∈ seen
      · rw [if_pos hk]; exact dedupGo_keys rest seen
      · rw [if_neg hk]
        obtain ⟨hnd, hnotin⟩ := dedupGo_keys rest (comboKey item :: seen)
        refine ⟨?_, ?_⟩
        · rw [List.map_cons, comboKey_enhance, List.nodup_cons]
          exact ⟨fun hmem => (hnotin _ hmem) (List.mem_cons_self _ _), hnd⟩
        · intro k hkmem
          rw [List.map_cons, comboKey_enhance] at hkmem
          rcases List.mem_cons.mp hkmem with rfl | hmem
          · exact hk
          · exact fun hseen => (hnotin _ hmem) (List.mem_cons_of_mem _ hseen)
    · rw [if_neg hc]; exact dedupGo_keys rest seen

theorem dedupGo_fixed :
    ∀ (l : List PyRecord) (seen : List String),
      (∀ x ∈ l, truthyS x.name = true ∧ truthyS x.apir = true ∧ enhance x = x) →
      (l.map comboKey).Nodup →
      (∀ k ∈ l.map comboKey, k ∉ seen) →
      dedupGo seen l = l
  | [], seen, _, _, _ => by simp [dedupGo]
  | item :: rest, seen, hall, hnd, hns => by
    obtain ⟨hn, ha, he⟩ := hall item (List.mem_cons_self _ _)
    rw [List.map_cons, List.nodup_cons] at hnd
    rw [dedupGo, if_pos (by rw [hn, ha]; rfl),
      if_neg (hns (comboKey item) (by simp)), he]
    congr 1
    refine dedupGo_fixed rest (comboKey item :: seen)
      (fun x hx => hall x (List.mem_cons_of_mem _ hx)) hnd.2 ?_
    intro k hkm hkin
    rcases List.mem_cons.mp hkin with rfl | hkseen
    · exact hnd.1 hkm
    · exact hns k (List.mem_cons_of_mem _ hkm) hkseen

/-- C4: the deduplicator is idempotent — applying `deduplicate_and_enhance`
to its own output returns exactly that output (same records, same order,
same field values). -/
theorem deduplicate_and_enhance_idempotent (l : List PyRecord) :
    deduplicate_and_enhance (deduplicate_and_enhance l) = deduplicate_and_enhance l := by
  unfold deduplicate_and_enhance
  apply dedupGo_fixed
  · intro x hx
    obtain ⟨y, _, rfl, hn, ha⟩ := mem_dedupGo l [] hx
    exact ⟨by rw [truthyS_enhance_name]; exact hn,
      by rw [truthyS_enhance_apir]; exact ha, enhance_enhance y⟩
  · exact (dedupGo_keys l []).1
  · exact fun k _ hk => absurd hk (List.not_mem_nil k)

/-- C3 counterexample: two records whose lower-cased trimmed names are both
`"x"` but whose identifiers differ are NOT merged by the code — the
deduplication key also includes the upper-cased identifier, so the claimed
output `[A, B]` (length 2) is wrong: all three records survive. -/
theorem dedup_name_match_counterexample :
    (deduplicate_and_enhance
      [ { name := some "x", apir := some "P0000001" }
      , { name := some "y", apir := some "Q0000001" }
      , { name := some "x", apir := some "P0000002" } ]).length = 3 ∧
    (deduplicate_and_enhance
      [ { name := some "x", apir := some "P0000001" }
      , { name := some "y", apir := some "Q0000001" }
      , { name := some "x", apir := some "P0000002" } ]).map PyRecord.name
      = [some "x", some "y", some "x"] := by
  decide

/-- C3 amended: the deduplicator returns an ordered subsequence preserving
the first occurrence of each duplicate group, where two records are
duplicates exactly when their combined key — lower-cased trimmed name
joined with upper-cased trimmed identifier — matches; for input
`[A(key k), B(key ≠ k), C(key k)]` with truthy names and identifiers the
output is `[A, B]` (each passed through the field-defaulting enhancement),
with `C`'s fields discarded entirely and never merged. -/
theorem dedup_first_seen_wins (A B C : PyRecord)
    (hAn : truthyS A.name = true) (hAa : truthyS A.apir = true)
    (hBn : truthyS B.name = true) (hBa : truthyS B.apir = true)
    (hCn : truthyS C.name = true) (hCa : truthyS C.apir = true)
    (hCA : comboKey C = comboKey A)
    (hBA : comboKey B ≠ comboKey A) :
    deduplicate_and_enhance [A, B, C] = [enhance A, enhance B] := by
  unfold deduplicate_and_enhance
  rw [dedupGo, if_pos (by rw [hAn, hAa]; rfl), if_neg (List.not_mem_nil _)]
  rw [dedupGo, if_pos (by rw [hBn, hBa]; rfl), if_neg (by simp [hBA])]
  rw [dedupGo, if_pos (by rw [hCn, hCa]; rfl), if_pos (by simp [hCA])]
  rw [dedupGo]

/-- Witness for C3's amended theorem at a concrete input. -/
theorem dedup_first_seen_wins_witness :
    deduplicate_and_enhance
      [ { name := some "x", apir := some "P0000001" }
      , { name := some "y", apir := some "Q0000001" }
      , { name := some "x ", apir := some "p0000001" } ]
      = [ enhance { name := some "x", apir := some "P0000001" }
        , enhance { name := some "y", apir := some "Q0000001" } ] :=
  dedup_first_seen_wins _ _ _ (by decide) (by decide) (by decide) (by decide)
    (by decide) (by decide) (by decide) (by decide)

/-- Every identifier-like key of a raw provider record
(`fundShareClassId`, `SecId`, `Ticker`, `TenforeId`, `ISIN`) is missing
or the empty string. -/
def AllIdsEmpty (item : RawItem) : Prop :=
  item.fundShareClassId.getD "" = "" ∧ item.SecId.getD "" = "" ∧
  item.Ticker.getD "" = "" ∧ item.TenforeId.getD "" = "" ∧
  item.ISIN.getD "" = ""

theorem format_apir_of_allIdsEmpty (item : RawItem) (src : String)
    (h : AllIdsEmpty item) :
    (format_morningstar_data item src).apir = some "" := by
  obtain ⟨h1, h2, h3, h4, h5⟩ := h
  simp [format_morningstar_data, h1, h2, h3, h4, h5, pyOrS_empty]

/-- C5: a raw record in which every identifier-like key (fundShareClassId,
SecId, Ticker, TenforeId, ISIN) is missing or empty is normalized to an
empty-string identifier, and is excluded both by the Morningstar
strategy/stock filters (which require truthy `apir` and `name`) and by the
deduplicator. -/
theorem empty_identifier_excluded (item : RawItem) (src : String)
    (rest : List PyRecord) (h : AllIdsEmpty item) :
    (format_morningstar_data item src).apir = some "" ∧
    formatFundItem item = none ∧
    formatStockItem item = none ∧
    deduplicate_and_enhance (format_morningstar_data item src :: rest)
      = deduplicate_and_enhance rest := by
  have hap := format_apir_of_allIdsEmpty item
  refine ⟨hap src h, ?_, ?_, ?_⟩
  · simp [formatFundItem, hap _ h, truthyS_some_empty]
  · simp [formatStockItem, hap _ h, truthyS_some_empty]
  · unfold deduplicate_and_enhance
    rw [dedupGo, if_neg]
    rw [hap src h, truthyS_some_empty, Bool.and_false]
    simp

/-- Witness for C5 at the raw record with no identifier keys at all. -/
theorem empty_identifier_excluded_witness :
    (format_morningstar_data { Name := some "Ghost Fund" } "Src").apir = some "" ∧
    formatFundItem { Name := some "Ghost Fund" } = none ∧
    formatStockItem { Name := some "Ghost Fund" } = none ∧
    deduplicate_and_enhance
        [format_morningstar_data { Name := some "Ghost Fund" } "Src"] = [] :=
  empty_identifier_excluded { Name := some "Ghost Fund" } "Src" []
    ⟨rfl, rfl, rfl, rfl, rfl⟩

/-- C2 counterexample: a request with the `term` parameter missing but a
non-integer `pageSize` answers 500, not the claimed 400 — `int(pageSize)`
runs before the missing-term check. -/
theorem missing_term_counterexample :
    (search_funds { pageSize := some "abc" } { }).status = 500 ∧
    search_funds { pageSize := some "abc" } { }
      ≠ ⟨400, .errBody "Search term is required"⟩ := by
  decide

theorem searchHandler_400 (d : Int) (ty : String) (args : Args) (ext : ExtInputs)
    (hterm : args.term.getD "" = "")
    (hps : ∀ s, args.pageSize = some s → (parsePyInt s).isSome = true) :
    searchHandler d args ext ty = ⟨400, .errBody "Search term is required"⟩ := by
  have hsome : ∃ v, pyPageSize args.pageSize d = some v := by
    cases hp : args.pageSize with
    | none => exact ⟨d, rfl⟩
    | some s =>
      have := hps s hp
      cases hv : parsePyInt s with
      | none => rw [hv] at this; simp at this
      | some v => exact ⟨v, by simp [pyPageSize, hv]⟩
  obtain ⟨v, hv⟩ := hsome
  rw [searchHandler_eq_some d args ext ty v hv, hterm, if_pos strIsEmpty_empty]

/-- C2 amended: for every search-endpoint request whose `term` is missing
or empty AND whose `pageSize`, when present, parses as an integer, the
response is HTTP 400 with body exactly `{"error": "Search term is
required"}`; when `pageSize` is present and unparseable, `int()` raises
first and the response is 500 instead (see the counterexample). -/
theorem missing_term_400 (args : Args) (ext : ExtInputs)
    (hterm : args.term.getD "" = "")
    (hps : ∀ s, args.pageSize = some s → (parsePyInt s).isSome = true) :
    search_funds args ext = ⟨400, .errBody "Search term is required"⟩ ∧
    search_stocks args ext = ⟨400, .errBody "Search term is required"⟩ ∧
    search_combined args ext = ⟨400, .errBody "Search term is required"⟩ ∧
    search_australia args ext = ⟨400, .errBody "Search term is required"⟩ := by
  refine ⟨searchHandler_400 20 "funds" args ext hterm hps,
    searchHandler_400 20 "stocks" args ext hterm hps,
    searchHandler_400 20 "combined" args ext hterm hps, ?_⟩
  have hsome : ∃ v, pyPageSize args.pageSize 30 = some v := by
    cases hp : args.pageSize with
    | none => exact ⟨30, rfl⟩
    | some s =>
      have := hps s hp
      cases hv : parsePyInt s with
      | none => rw [hv] at this; simp at this
      | some v => exact ⟨v, by simp [pyPageSize, hv]⟩
  obtain ⟨v, hv⟩ := hsome
  rw [search_australia_eq_some args ext v hv, hterm, if_pos strIsEmpty_empty]

/-- Witness for C2's amended theorem: no `term` and no `pageSize`. -/
theorem missing_term_400_witness :
    search_funds { } { } = ⟨400, .errBody "Search term is required"⟩ ∧
    search_stocks { } { } = ⟨400, .errBody "Search term is required"⟩ ∧
    search_combined { } { } = ⟨400, .errBody "Search term is required"⟩ ∧
    search_australia { } { } = ⟨400, .errBody "Search term is required"⟩ :=
  missing_term_400 { } { } rfl (fun s h => by cases h)

/-- C10: a present but unparseable `pageSize` makes every search handler
answer HTTP 500 with a JSON error body (never 400), even when `term` is
also missing, because `int(request.args.get('pageSize', ...))` runs before
the missing-term check. -/
theorem bad_pagesize_500 (args : Args) (ext : ExtInputs) (s : String)
    (hs : args.pageSize = some s) (hbad : parsePyInt s = none) :
    ((search_funds args ext).status = 500 ∧
      (search_funds args ext).isError ∧ (search_funds args ext).status ≠ 400) ∧
    ((search_stocks args ext).status = 500 ∧
      (search_stocks args ext).isError ∧ (search_stocks args ext).status ≠ 400) ∧
    ((search_combined args ext).status = 500 ∧
      (search_combined args ext).isError ∧ (search_combined args ext).status ≠ 400) ∧
    ((search_australia args ext).status = 500 ∧
      (search_australia args ext).isError ∧ (search_australia args ext).status ≠ 400) := by
  have hpp : ∀ d : Int, pyPageSize args.pageSize d = none := by
    intro d; rw [hs]; exact hbad
  have hh : ∀ (d : Int) (ty : String),
      searchHandler d args ext ty
        = ⟨500, .errBody ("invalid literal for int() with base 10: " ++
            (args.pageSize.getD ""))⟩ :=
    fun d ty => searchHandler_eq_none d args ext ty (hpp d)
  have ha : search_australia args ext
      = ⟨500, .errBody ("invalid literal for int() with base 10: " ++
          (args.pageSize.getD ""))⟩ :=
    search_australia_eq_none args ext (hpp 30)
  refine ⟨?_, ?_, ?_, ?_⟩ <;>
    simp [search_funds, search_stocks, search_combined, hh, ha, HttpResponse.isError]

/-- Witness for C10: `pageSize=abc` with no search term. -/
theorem bad_pagesize_500_witness :
    (search_funds { pageSize := some "abc" } { }).status = 500 ∧
    (search_australia { pageSize := some "abc" } { }).status = 500 :=
  ⟨((bad_pagesize_500 { pageSize := some "abc" } { } "abc" (by decide) (by decide)).1).1,
   ((bad_pagesize_500 { pageSize := some "abc" } { } "abc" (by decide) (by decide)).2.2.2).1⟩

theorem mem_pySlice {α} {r : α} {n : Int} {l : List α} (h : r ∈ pySlice n l) :
    r ∈ l := by
  unfold pySlice at h
  split at h <;> exact List.take_subset _ _ h

theorem mem_fundPipeline {r : PyRecord}
    {strategies : List (Except String (List RawItem))}
    (h : r ∈ fundPipeline strategies) :
    ∃ item : RawItem,
      r = format_morningstar_data item "Enhanced Morningstar Multi-Strategy" ∧
      truthyS r.apir = true ∧ truthyS r.name = true := by
  simp only [fundPipeline, List.mem_flatten, List.mem_map] at h
  obtain ⟨sub, ⟨st, _, rfl⟩, hr⟩ := h
  cases st with
  | error e => simp at hr
  | ok items =>
    simp only [List.mem_filterMap] at hr
    obtain ⟨item, _, hf⟩ := hr
    simp only [formatFundItem] at hf
    split at hf
    case isTrue hcond =>
      have hre := (Option.some.inj hf).symm
      refine ⟨item, hre, ?_, ?_⟩
      · rw [hre]; exact ((Bool.and_eq_true _ _).mp hcond).1
      · rw [hre]; exact ((Bool.and_eq_true _ _).mp hcond).2
    case isFalse => cases hf

theorem fundPipeline_type {r : PyRecord}
    {strategies : List (Except String (List RawItem))}
    (h : r ∈ fundPipeline strategies) : r.type = some "Fund" := by
  obtain ⟨item, rfl, -, -⟩ := mem_fundPipeline h
  rfl

theorem mem_stockPipeline {r : PyRecord}
    {stockSearch : Except String (List RawItem)}
    (h : r ∈ stockPipeline stockSearch) :
    r.tcr = none ∧ r.type = some "Stock/ETF" ∧
    truthyS r.apir = true ∧ truthyS r.name = true := by
  cases stockSearch with
  | error e => simp [stockPipeline] at h
  | ok items =>
    simp only [stockPipeline, List.mem_filterMap] at h
    obtain ⟨item, _, hf⟩ := h
    simp only [formatStockItem] at hf
    split at hf
    case isTrue hcond =>
      rw [← Option.some.inj hf]
      exact ⟨rfl, rfl, ((Bool.and_eq_true _ _).mp hcond).1,
        ((Bool.and_eq_true _ _).mp hcond).2⟩
    case isFalse => cases hf

theorem enhanced_member_truthy {r : PyRecord}
    {strategies : List (Except String (List RawItem))}
    {stockSearch : Except String (List RawItem)}
    (h : r ∈ enhanced_morningstar_multiple_strategies strategies stockSearch) :
    truthyS r.name = true ∧ truthyS r.apir = true := by
  rcases List.mem_append.mp h with h | h
  · obtain ⟨item, rfl, ha, hn⟩ := mem_fundPipeline h
    exact ⟨hn, ha⟩
  · exact ⟨(mem_stockPipeline h).2.2.2, (mem_stockPipeline h).2.2.1⟩

theorem enhanced_stock_tcr {r : PyRecord}
    {strategies : List (Except String (List RawItem))}
    {stockSearch : Except String (List RawItem)}
    (h : r ∈ enhanced_morningstar_multiple_strategies strategies stockSearch)
    (ht : r.type = some "Stock/ETF") : r.tcr = none := by
  rcases List.mem_append.mp h with h | h
  · rw [fundPipeline_type h] at ht
    simp at ht
  · exact (mem_stockPipeline h).1

theorem runTask_stock_tcr {term : String} {t : SourceTask} {r : PyRecord}
    (h : r ∈ runTask term t) (ht : r.type = some "Stock/ETF") : r.tcr = none := by
  cases t with
  | apirTask codes =>
    simp only [runTask, List.mem_map] at h
    obtain ⟨c, -, rfl⟩ := h
    simp [apirRecord] at ht
  | mfundTask rows =>
    simp only [runTask, List.mem_map] at h
    obtain ⟨row, -, rfl⟩ := h
    simp [mfundRecord] at ht
  | atoTask rows =>
    simp only [runTask, List.mem_map] at h
    obtain ⟨row, -, rfl⟩ := h
    simp [atoRecord] at ht
  | investsmartTask funds =>
    simp only [runTask, List.mem_map] at h
    obtain ⟨f, -, rfl⟩ := h
    simp [investsmartRecord] at ht
  | msAuTask links =>
    simp only [runTask, List.mem_map] at h
    obtain ⟨x, -, rfl⟩ := h
    simp [msAuRecord] at ht
  | comparisonTask items =>
    simp only [runTask, List.mem_map] at h
    obtain ⟨x, -, rfl⟩ := h
    simp [comparisonRecord] at ht
  | fmTask items =>
    simp only [runTask, List.mem_map] at h
    obtain ⟨x, -, rfl⟩ := h
    simp only [fmRecord] at ht
    split at ht <;> simp at ht
  | morningstarApiTask strategies stockSearch =>
    exact enhanced_stock_tcr h ht
  | failedTask msg => simp [runTask] at h

theorem super_options_type {term : String} {r : PyRecord}
    (h : r ∈ get_comprehensive_super_fund_options term) :
    r.type = some "Super Fund Option" := by
  simp only [get_comprehensive_super_fund_options, List.mem_map] at h
  obtain ⟨p, -, rfl⟩ := h
  rfl

theorem etf_database_type {term : String} {r : PyRecord}
    (h : r ∈ get_asx_etf_database term) : r.type = some "ETF" := by
  simp only [get_asx_etf_database, List.mem_map] at h
  obtain ⟨p, -, rfl⟩ := h
  rfl

theorem ultimate_stock_tcr {term ty : String} {tasks : List SourceTask}
    {tmo : Option String} {rs : List PyRecord} {r : PyRecord}
    (he : search_ultimate_comprehensive term ty tasks tmo = .ok rs)
    (h : r ∈ rs) (ht : r.type = some "Stock/ETF") : r.tcr = none := by
  cases tmo with
  | some m => exact absurd he (by simp [search_ultimate_comprehensive])
  | none =>
  simp only [search_ultimate_comprehensive] at he
  injection he with he
  subst he
  obtain ⟨x, hx, rfl, -, -⟩ := mem_dedupGo _ _ h
  rw [type_enhance] at ht
  have ht' : x.type.getD "Fund" = "Stock/ETF" := Option.some.inj ht
  have hxt : x.type = some "Stock/ETF" := by
    cases hx0 : x.type with
    | none => rw [hx0] at ht'; simp at ht'
    | some s =>
      rw [hx0] at ht'
      simp only [Option.getD_some] at ht'
      exact congrArg some ht'
  rw [tcr_enhance]
  rcases List.mem_append.mp hx with hx | hx
  · rcases List.mem_append.mp hx with hx | hx
    · simp only [List.mem_flatten, List.mem_map] at hx
      obtain ⟨sub, ⟨t, -, rfl⟩, hxm⟩ := hx
      exact runTask_stock_tcr hxm hxt
    · rw [super_options_type hx] at hxt
      simp at hxt
  · rw [etf_database_type hx] at hxt
    simp at hxt

theorem searchHandler_results (d : Int) (args : Args) (ext : ExtInputs)
    (ty : String) :
    (searchHandler d args ext ty).results = [] ∨
    ∃ ps, pyPageSize args.pageSize d = some ps ∧
      ((∃ rs, search_ultimate_comprehensive (args.term.getD "") ty
            ext.tasks ext.ultimateTimeout = .ok rs ∧
          (searchHandler d args ext ty).results = pySlice ps rs) ∨
        (searchHandler d args ext ty).results = pySlice ps
          (enhanced_morningstar_multiple_strategies ext.strategies
            ext.stockSearch)) := by
  cases hp : pyPageSize args.pageSize d with
  | none => rw [searchHandler_eq_none d args ext ty hp]; exact Or.inl rfl
  | some ps =>
    rw [searchHandler_eq_some d args ext ty ps hp]
    by_cases he : strIsEmpty (args.term.getD "") = true
    · rw [if_pos he]; exact Or.inl rfl
    · rw [if_neg he]
      by_cases hau : countryIsAu args.country = true
      · rw [if_pos hau]
        cases hu : search_ultimate_comprehensive (args.term.getD "") ty
            ext.tasks ext.ultimateTimeout with
        | error msg => exact Or.inl rfl
        | ok rs => exact Or.inr ⟨ps, rfl, Or.inl ⟨rs, rfl, rfl⟩⟩
      · rw [if_neg hau]
        exact Or.inr ⟨ps, rfl, Or.inr rfl⟩

/-- C1: every stock-type record (`type = 'Stock/ETF'`) has a null cost
ratio `tcr`, both among the records produced by the Morningstar
stock-search path inside `enhanced_morningstar_multiple_strategies` and in
the `results` of any `/api/search/stocks` response, regardless of the
`ongoingCharge` value the raw input record carried. -/
theorem stock_records_tcr_null (args : Args) (ext : ExtInputs)
    (strategies : List (Except String (List RawItem)))
    (stockSearch : Except String (List RawItem)) (r q : PyRecord)
    (hr : r ∈ (search_stocks args ext).results)
    (htr : r.type = some "Stock/ETF")
    (hq : q ∈ enhanced_morningstar_multiple_strategies strategies stockSearch)
    (htq : q.type = some "Stock/ETF") :
    r.tcr = none ∧ q.tcr = none := by
  refine ⟨?_, enhanced_stock_tcr hq htq⟩
  rcases searchHandler_results 20 args ext "stocks" with hres | ⟨ps, -, ⟨rs, hok, hres⟩ | hres⟩
  · rw [search_stocks, hres] at hr
    cases hr
  · rw [search_stocks, hres] at hr
    exact ultimate_stock_tcr hok (mem_pySlice hr) htr
  · rw [search_stocks, hres] at hr
    exact enhanced_stock_tcr (mem_pySlice hr) htr

/-- Witness inputs for C1: one raw stock item with an ongoing charge. -/
def c1ext : ExtInputs :=
  { strategies := []
  , stockSearch := .ok [{ Ticker := some "VAS", Name := some "V Stock"
                        , ongoingCharge := some (0.1 : ℚ) }]
  , tasks := [] }

/-- The record the stock path builds from `c1ext`'s raw item. -/
def c1rec : PyRecord :=
  { apir := some "VAS", name := some "V Stock", tcr := none
  , assetClass := some "", sector := some ""
  , status := some "Enhanced Morningstar Stocks", country := some "Australia"
  , currency := some "AUD", exchange := some "", type := some "Stock/ETF" }

/-- Witness for C1 at a concrete request. -/
theorem stock_records_tcr_null_witness :
    c1rec ∈ (search_stocks { term := some "v" } c1ext).results ∧
    c1rec.type = some "Stock/ETF" ∧ c1rec.tcr = none :=
  ⟨by decide, by decide,
    (stock_records_tcr_null { term := some "v" } c1ext c1ext.strategies
      c1ext.stockSearch c1rec c1rec (by decide) (by decide) (by decide)
      (by decide)).1⟩

/-- Request of C9: `/api/search/funds?term=Vanguard&pageSize=5`. -/
def c9args : Args := { term := some "Vanguard", pageSize := some "5" }

/-- C9: `GET /api/search/funds?term=Vanguard&pageSize=5` answers HTTP 200,
its `results` array has at most 5 entries (truncation to `pageSize`), and
every element has a non-null, non-empty `name` — for every behaviour of
the external provider. -/
theorem funds_vanguard_pagesize5 (ext : ExtInputs) :
    (search_funds c9args ext).status = 200 ∧
    (search_funds c9args ext).results.length ≤ 5 ∧
    ∀ r ∈ (search_funds c9args ext).results, truthyS r.name = true := by
  have h5 : pyPageSize c9args.pageSize 20 = some 5 := by decide
  have hresp : search_funds c9args ext = okResponse 5
      (enhanced_morningstar_multiple_strategies ext.strategies ext.stockSearch) := by
    rw [search_funds, searchHandler_eq_some 20 c9args ext "funds" 5 h5,
      if_neg (by decide), if_neg (by decide)]
  refine ⟨by rw [hresp]; rfl, ?_, ?_⟩
  · rw [hresp]
    simp only [okResponse, HttpResponse.results]
    unfold pySlice
    rw [if_pos (by decide)]
    exact List.length_take_le _ _
  · intro r hr
    rw [hresp] at hr
    simp only [okResponse, HttpResponse.results] at hr
    exact (enhanced_member_truthy (mem_pySlice hr)).1

/-- Witness provider behaviour for C9: one strategy returning one fund. -/
def c9ext : ExtInputs :=
  { strategies := [.ok [{ fundShareClassId := some "VAN0011AU"
                        , Name := some "Vanguard Shares" }]]
  , stockSearch := .error "x"
  , tasks := [] }

/-- The record the fund path builds from `c9ext`'s raw item. -/
def c9rec : PyRecord :=
  { apir := some "VAN0011AU", name := some "Vanguard Shares"
  , assetClass := some "", sector := some ""
  , status := some "Enhanced Morningstar Multi-Strategy"
  , country := some "Australia", currency := some "AUD"
  , exchange := some "", type := some "Fund" }

/-- Witness for C9 at concrete provider behaviour. -/
theorem funds_vanguard_pagesize5_witness :
    (search_funds c9args c9ext).status = 200 ∧
    (search_funds c9args c9ext).results.length ≤ 5 ∧
    truthyS c9rec.name = true :=
  ⟨(funds_vanguard_pagesize5 c9ext).1, (funds_vanguard_pagesize5 c9ext).2.1,
   (funds_vanguard_pagesize5 c9ext).2.2 c9rec (by decide)⟩

/-- C6 amended: for `/api/search/combined` requests that do NOT select the
country=au aggregated path, the results are the fund-lookup records
followed by the stock-lookup records, truncated to `pageSize` — funds
first, stocks fill the remaining page slots.  (On the country=au path no
such ordering holds; see the counterexample.) -/
theorem combined_funds_first (args : Args) (ext : ExtInputs) (ps : Int)
    (hau : countryIsAu args.country = false)
    (hterm : strIsEmpty (args.term.getD "") = false)
    (hps : pyPageSize args.pageSize 20 = some ps) :
    (search_combined args ext).results
      = pySlice ps (fundPipeline ext.strategies ++ stockPipeline ext.stockSearch) ∧
    (∀ r ∈ fundPipeline ext.strategies, r.type = some "Fund") ∧
    (∀ r ∈ stockPipeline ext.stockSearch, r.type = some "Stock/ETF") := by
  refine ⟨?_, fun r hr => fundPipeline_type hr,
    fun r hr => (mem_stockPipeline hr).2.1⟩
  rw [search_combined, searchHandler_eq_some 20 args ext "combined" ps hps,
    if_neg (by simp [hterm]), if_neg (by simp [hau])]
  rfl

/-- The ordering property C6 asserts of a results array: a stock-type
record never precedes a fund-type record (stocks only fill the slots
after the funds). -/
def noFundAfterStock (rs : List PyRecord) : Prop :=
  ∀ i j : Fin rs.length, (i : ℕ) < (j : ℕ) →
    (rs.get i).type = some "Stock/ETF" → (rs.get j).type ≠ some "Fund"

/-- Counterexample request for C6: a country=au combined search. -/
def c6cxArgs : Args := { term := some "zzq", country := some "au" }

/-- Counterexample collaborator behaviour for C6: the Morningstar API task
(returning one stock) completes before the APIR scraper task (returning
one fund-typed record). -/
def c6cxExt : ExtInputs :=
  { strategies := [], stockSearch := .error "x"
  , tasks :=
      [ .morningstarApiTask []
          (.ok [{ Ticker := some "ZZT", Name := some "zzq stock" }])
      , .apirTask ["ZZQ1234AU"] ] }

/-- C6 counterexample: on the country=au path of `/api/search/combined`
the results follow fan-out completion order, so a stock-type record can
occupy an earlier slot than a fund-type record — funds do not come
first. -/
theorem combined_funds_first_counterexample :
    ¬ noFundAfterStock (search_combined c6cxArgs c6cxExt).results := by
  intro h
  have h01 := h ⟨0, by decide⟩ ⟨1, by decide⟩ (by decide) (by decide)
  exact h01 (by decide)

/-- Witness request/behaviour for C6's amended theorem. -/
def c6wArgs : Args := { term := some "q" }

/-- Witness collaborator behaviour for C6: one fund and one stock. -/
def c6wExt : ExtInputs :=
  { strategies := [.ok [{ SecId := some "F000Q", Name := some "Q Fund" }]]
  , stockSearch := .ok [{ Ticker := some "QST", Name := some "Q Stock" }]
  , tasks := [] }

/-- The fund record of `c6wExt`. -/
def c6wFund : PyRecord :=
  { apir := some "F000Q", name := some "Q Fund"
  , assetClass := some "", sector := some ""
  , status := some "Enhanced Morningstar Multi-Strategy"
  , country := some "Australia", currency := some "AUD"
  , exchange := some "", type := some "Fund" }

/-- The stock record of `c6wExt`. -/
def c6wStock : PyRecord :=
  { apir := some "QST", name := some "Q Stock", tcr := none
  , assetClass := some "", sector := some ""
  , status := some "Enhanced Morningstar Stocks"
  , country := some "Australia", currency := some "AUD"
  , exchange := some "", type := some "Stock/ETF" }

/-- Witness for C6's amended theorem at a concrete request. -/
theorem combined_funds_first_witness :
    (search_combined c6wArgs c6wExt).results
      = pySlice 20 (fundPipeline c6wExt.strategies
          ++ stockPipeline c6wExt.stockSearch) ∧
    c6wFund.type = some "Fund" ∧ c6wStock.type = some "Stock/ETF" :=
  ⟨(combined_funds_first c6wArgs c6wExt 20 (by decide) (by decide) (by decide)).1,
   (combined_funds_first c6wArgs c6wExt 20 (by decide) (by decide) (by decide)).2.1
      c6wFund (by decide),
   (combined_funds_first c6wArgs c6wExt 20 (by decide) (by decide) (by decide)).2.2
      c6wStock (by decide)⟩

theorem fanout_drop_failed (term : String) (pre post : List SourceTask)
    (msg : String) :
    ((pre ++ SourceTask.failedTask msg :: post).map (runTask term)).flatten
      = ((pre ++ post).map (runTask term)).flatten := by
  simp [List.map_append, List.flatten_append, runTask]

theorem ultimate_drop_failed (term ty : String) (tmo : Option String)
    (pre post : List SourceTask) (msg : String) :
    search_ultimate_comprehensive term ty (pre ++ .failedTask msg :: post) tmo
      = search_ultimate_comprehensive term ty (pre ++ post) tmo := by
  cases tmo with
  | some m => rfl
  | none =>
    unfold search_ultimate_comprehensive
    rw [fanout_drop_failed]

/-- Request of C8's counterexample and witness. -/
def c8args : Args := { term := some "zz" }

/-- Counterexample collaborator behaviour for C8: the fan-out collection
hits the blanket `as_completed(..., timeout=120)` timeout while a source
task holds records. -/
def c8cxExt : ExtInputs :=
  { strategies := [], stockSearch := .error "e"
  , tasks := [.apirTask ["ZZQ1234AU"]]
  , ultimateTimeout := some "8 (of 8) futures unfinished" }

/-- C8 counterexample: a fan-out that times out does NOT leave the
response a success built from the remaining sources' records — the
`TimeoutError` raised by `as_completed(..., timeout=120)` at the `for`
statement (line 648) is outside the per-future try/except, propagates
uncaught out of `search_ultimate_comprehensive`, and the handler's
catch-all answers HTTP 500 with an error body, discarding every collected
record (the same request without the timeout answers 200). -/
theorem fanout_failure_isolated_counterexample :
    (search_australia c8args c8cxExt).status = 500 ∧
    search_australia c8args c8cxExt
      = ⟨500, .errBody "8 (of 8) futures unfinished"⟩ ∧
    search_australia c8args { c8cxExt with ultimateTimeout := none }
      ≠ search_australia c8args c8cxExt := by
  decide

/-- C8 amended: a fan-out task whose `result()` raises an exception
contributes zero records to the concatenated result and the
`/api/search/australia` response equals — still a success response,
HTTP 200 — the one computed from the remaining sources alone; but when
the fan-out collection times out (the blanket 120-second `as_completed`
timeout, the only realizable timeout since `result(timeout=30)` is
called on already-completed futures), the `TimeoutError` is uncaught in
`search_ultimate_comprehensive` and the response is HTTP 500 with an
error body, all sources' records discarded. -/
theorem fanout_failure_isolated (args : Args)
    (strategies : List (Except String (List RawItem)))
    (stockSearch : Except String (List RawItem))
    (pre post tasks : List SourceTask) (msg tmsg : String)
    (hterm : strIsEmpty (args.term.getD "") = false)
    (hps : ∀ s, args.pageSize = some s → (parsePyInt s).isSome = true) :
    (search_australia args
        ⟨strategies, stockSearch, pre ++ .failedTask msg :: post, none⟩
      = search_australia args ⟨strategies, stockSearch, pre ++ post, none⟩ ∧
    runTask (args.term.getD "") (.failedTask msg) = [] ∧
    (search_australia args
        ⟨strategies, stockSearch, pre ++ .failedTask msg :: post, none⟩).status
      = 200 ∧
    ¬ (search_australia args
        ⟨strategies, stockSearch, pre ++ .failedTask msg :: post, none⟩).isError) ∧
    search_australia args ⟨strategies, stockSearch, tasks, some tmsg⟩
      = ⟨500, .errBody tmsg⟩ := by
  have hsome : ∃ v, pyPageSize args.pageSize 30 = some v := by
    cases hp : args.pageSize with
    | none => exact ⟨30, rfl⟩
    | some s =>
      have := hps s hp
      cases hv : parsePyInt s with
      | none => rw [hv] at this; simp at this
      | some v => exact ⟨v, by simp [pyPageSize, hv]⟩
  obtain ⟨v, hv⟩ := hsome
  have hgen : ∀ (ts : List SourceTask) (tmo : Option String),
      search_australia args ⟨strategies, stockSearch, ts, tmo⟩
        = ultimateResponse v (search_ultimate_comprehensive (args.term.getD "")
            (args.type.getD "combined") ts tmo) := by
    intro ts tmo
    rw [search_australia_eq_some args ⟨strategies, stockSearch, ts, tmo⟩ v hv,
      if_neg (by simp [hterm])]
  refine ⟨⟨?_, rfl, ?_, ?_⟩, ?_⟩
  · rw [hgen, hgen, ultimate_drop_failed]
  · rw [hgen]; rfl
  · rw [hgen]
    simp [ultimateResponse, search_ultimate_comprehensive, okResponse,
      HttpResponse.isError]
  · rw [hgen]
    rfl

/-- Witness for C8's amended theorem: a single raising task against no
other sources (200, unchanged response), and a timed-out collection
(500 with the timeout message). -/
theorem fanout_failure_isolated_witness :
    search_australia c8args ⟨[], .error "e", [.failedTask "boom"], none⟩
      = search_australia c8args ⟨[], .error "e", [], none⟩ ∧
    (search_australia c8args
        ⟨[], .error "e", [.failedTask "boom"], none⟩).status = 200 ∧
    search_australia c8args ⟨[], .error "e", [.apirTask ["ZZQ1234AU"]], some "t"⟩
      = ⟨500, .errBody "t"⟩ :=
  ⟨(fanout_failure_isolated c8args [] (.error "e") [] [] [.apirTask ["ZZQ1234AU"]]
      "boom" "t" (by decide) (fun s h => by cases h)).1.1,
   (fanout_failure_isolated c8args [] (.error "e") [] [] [.apirTask ["ZZQ1234AU"]]
      "boom" "t" (by decide) (fun s h => by cases h)).1.2.2.1,
   (fanout_failure_isolated c8args [] (.error "e") [] [] [.apirTask ["ZZQ1234AU"]]
      "boom" "t" (by decide) (fun s h => by cases h)).2⟩

/-- Modelled from the spec: the revision under src/ contains no relevance
classifier — spec §4.2 describes one present in other revisions (and §9
notes its rejection list is dead code there).  This list is §4.2's
configuration data: recognized institution abbreviations. -/
def recognized_institutions : List String :=
  ["AMP", "ANZ", "CBA", "NAB", "WBC", "MLC", "ASU", "HES", "HOS",
   "RES", "UNI", "CBU", "VAN", "BTA", "ISH", "FID", "MAG"]

/-- Modelled from the spec: the fixed allow-list of jurisdiction exchange
identifiers (§4.2). -/
def jurisdiction_exchanges : List String := ["XASX", "ASX"]

/-- Modelled from the spec: jurisdiction-indicative name substrings
(§4.2). -/
def jurisdiction_name_hints : List String :=
  ["australia", "australian", "asx", "aud"]

/-- Modelled from the spec: the relevance classifier of §4.2 ("is this an
Australian investment"), the disjunction of the five sufficient acceptance
conditions; per §9, the rejection-list veto is dead/unspecified code in
the source revisions and is not part of the intended behaviour, so it is
not included. -/
def is_australian_investment (r : PyRecord) : Bool :=
  (strEndsWith (r.apir.getD "") "AU" && decide (8 ≤ (r.apir.getD "").length))
  || (recognized_institutions.any (fun ab => strHasSubstr (r.apir.getD "") ab)
      && strHasSubstr (r.apir.getD "") "AU")
  || jurisdiction_exchanges.any (fun e => r.exchange.getD "" == e)
  || strHasSubstr (strLower (r.country.getD "")) "australia"
  || (r.currency.getD "" == "AUD"
      && jurisdiction_name_hints.any
          (fun hint => strHasSubstr (strLower (r.name.getD "")) hint))

/-- C7: the relevance classifier accepts identifier `"ABC1234AU"` (9
characters ending in the jurisdiction suffix, length ≥ 8), rejects
identifier `"F00000123"` (the internal-placeholder pattern matches no
acceptance rule), and accepts any record whose country field is
`"Australia"` regardless of its identifier. -/
theorem relevance_classifier_cases (r : PyRecord)
    (hc : r.country = some "Australia") :
    is_australian_investment { apir := some "ABC1234AU" } = true ∧
    is_australian_investment { apir := some "F00000123" } = false ∧
    is_australian_investment r = true := by
  refine ⟨by decide, by decide, ?_⟩
  have h4 : strHasSubstr (strLower (r.country.getD "")) "australia" = true := by
    rw [hc]; decide
  simp [is_australian_investment, h4]

/-- Witness for C7: a record with country Australia and a non-Australian
identifier is accepted. -/
theorem relevance_classifier_cases_witness :
    is_australian_investment
      { country := some "Australia", apir := some "XYZ" } = true :=
  (relevance_classifier_cases
    { country := some "Australia", apir := some "XYZ" } rfl).2.2

end InvestmentTool
